import Mathlib

/-!
Shallow embedding of `src/poster_downloader.py`.

The script is a thin HTTP client plus pure selection logic.  The network
is modelled by passing the decoded JSON responses in explicitly (an `Env`
record holds the search responses, the poster listing and the byte
fetcher), the filesystem by an explicit `FS` record threaded through the
calls, and Python exceptions (`KeyError` from unguarded dict indexing,
`TypeError` from iterating `None`) by an `Except PyError` result.
Dictionary fields that the JSON may omit are `Option`-valued; a field
whose JSON value may itself be `null` (the poster's `iso_639_1`) is
`Option (Option String)`: `none` = key absent, `some none` = key present
with value `null`.
-/

namespace PosterDownloader

/-- `IMAGE_BASE` of the script (line 25). -/
def IMAGE_BASE : String := "https://image.tmdb.org/t/p/original"

/-- A Python exception the modelled code can raise. -/
inductive PyError where
  | keyError (key : String)
  | typeError
  deriving DecidableEq

/-- One entry of the `posters` list of the images response.  `iso_639_1`
is `none` when the key is absent and `some none` when it is `null`. -/
structure Poster where
  iso_639_1 : Option (Option String)
  file_path : Option String
  width : Option Nat
  deriving DecidableEq

/-- One entry of a search response's `results` list, together with the
`media_type` key the script stores into the dict. -/
structure SearchResult where
  id : Nat
  title : Option String
  name : Option String
  release_date : Option String
  first_air_date : Option String
  popularity : Option ℚ
  media_type : Option String
  deriving DecidableEq

/-- Python's `max(x :: xs, key)`: fold keeping the current maximum,
replacing it only on a strictly greater key, so ties keep the
first-seen element. -/
def pyMax1 {α β : Type*} [LinearOrder β] (key : α → β) (x : α) (xs : List α) : α :=
  xs.foldl (fun best y => if key best < key y then y else best) x

/-- `p.get("width", 0)` (lines 111 and 114). -/
def widthOf (p : Poster) : Nat := p.width.getD 0

/-- `x.get("popularity", 0)` (line 84). -/
def popOf (r : SearchResult) : ℚ := r.popularity.getD 0

/-- The list comprehension `[p for p in posters if p["iso_639_1"] == "en"]`
(line 109): the unguarded index raises `KeyError` on the first entry
without the key. -/
def filterEn : List Poster → Except PyError (List Poster)
  | [] => .ok []
  | p :: ps =>
    match p.iso_639_1 with
    | none => .error (.keyError "iso_639_1")
    | some tag =>
      match filterEn ps with
      | .error e => .error e
      | .ok rest => .ok (if tag = some "en" then p :: rest else rest)

/-- `get_poster_url` (lines 98-115) applied to the decoded `posters`
list of the images response: empty list gives the "no poster" sentinel,
otherwise the maximum-width poster of the `en` bucket when that bucket
is non-empty, of the whole list otherwise, and the result is the image
base joined with its `file_path`. -/
def get_poster_url : List Poster → Except PyError (Option String)
  | [] => .ok none
  | p :: ps =>
    match filterEn (p :: ps) with
    | .error e => .error e
    | .ok en_posters =>
      let best :=
        match en_posters with
        | [] => pyMax1 widthOf p ps
        | e :: es => pyMax1 widthOf e es
      match best.file_path with
      | none => .error (.keyError "file_path")
      | some fp => .ok (some (IMAGE_BASE ++ fp))

/-- `result["media_type"] = mtype` (lines 43 and 93). -/
def setType (mt : String) (r : SearchResult) : SearchResult :=
  { r with media_type := some mt }

/-- The combined candidate list built in auto mode (lines 34-44): up to
five results per endpoint, movie results first, each stamped with its
`media_type`. -/
def combined (movieResults tvResults : List SearchResult) : List SearchResult :=
  (movieResults.take 5).map (setType "movie") ++ (tvResults.take 5).map (setType "tv")

/-- Python's `str.strip()` as applied to the console line (line 68). -/
def pyStrip (s : String) : String :=
  String.mk (((s.toList.dropWhile Char.isWhitespace).reverse.dropWhile
    Char.isWhitespace).reverse)

/-- The digit tail of an integer literal, one underscore allowed between
two digits (Python's `int` grammar); `acc` holds the digits read so far. -/
def pyDigits : List Char → Nat → Option Nat
  | [], acc => some acc
  | c :: cs, acc =>
    if c.isDigit then pyDigits cs (acc * 10 + (c.toNat - 48))
    else if c = '_' then
      match cs with
      | [] => none
      | d :: ds =>
        if d.isDigit then pyDigits ds (acc * 10 + (d.toNat - 48)) else none
    else none

/-- An unsigned integer literal: at least one digit, then `pyDigits`. -/
def pyIntNat : List Char → Option Nat
  | [] => none
  | c :: cs => if c.isDigit then pyDigits cs (c.toNat - 48) else none

/-- Python's `int(s)` on an already stripped string (line 74): optional
sign then digits; any other shape raises `ValueError`, modelled as
`none`. -/
def pyInt (s : String) : Option Int :=
  match s.toList with
  | '+' :: rest => (pyIntNat rest).map (fun n => (n : Int))
  | '-' :: rest => (pyIntNat rest).map (fun n => -(n : Int))
  | l => (pyIntNat l).map (fun n => (n : Int))

/-- The interactive disambiguation (lines 67-82) over the candidate list
`first :: rest`, reading the console line `raw`.  Returns the chosen
candidate and whether the invalid-input warning was printed: empty input
picks the first candidate silently; a parsed index is accepted when
`0 <= idx < len` after subtracting one; anything else falls back to the
first candidate with a warning. -/
def interactive_select (first : SearchResult) (rest : List SearchResult)
    (raw : String) : SearchResult × Bool :=
  let all_results := first :: rest
  let choice := pyStrip raw
  if choice = "" then (first, false)
  else
    match pyInt choice with
    | some n =>
      let idx : Int := n - 1
      if 0 ≤ idx ∧ idx < (all_results.length : Int) then
        (all_results.getD idx.toNat first, false)
      else (first, true)
    | none => (first, true)

/-- The auto branch of `search_media` (lines 31-84) as a function of the
two decoded search responses: `none` for zero candidates, the sole
candidate directly, otherwise interactive selection or the
maximum-popularity candidate (`max` with `popularity` key, missing key
counting as 0).  The `Bool` records whether the invalid-input warning
was printed. -/
def search_media_auto (movieResults tvResults : List SearchResult)
    (interactive : Bool) (raw : String) : Option SearchResult × Bool :=
  match combined movieResults tvResults with
  | [] => (none, false)
  | [r] => (some r, false)
  | r :: rs =>
    if interactive then
      let sel := interactive_select r rs raw
      (some sel.1, sel.2)
    else
      (some (pyMax1 popOf r rs), false)

/-- The explicit-type branch of `search_media` (lines 86-95): first
result of the one endpoint queried, stamped with the requested type,
`none` when the results list is empty or absent. -/
def search_media_typed (results : List SearchResult) (media_type : String) :
    Option SearchResult :=
  match results with
  | [] => none
  | r :: _ => some (setType media_type r)

/-- The decoded responses of the external service for one title: the
two search endpoints' `results` lists, the images endpoint's `posters`
list for the resolved id, and the body bytes of a poster GET. -/
structure Env where
  movieResults : List SearchResult
  tvResults : List SearchResult
  posters : List Poster
  imageBytes : String → String

/-- `search_media` (lines 28-95) over the decoded responses: the auto
branch for `media_type = "auto"`, else the single-endpoint branch (the
movie endpoint for `"movie"`, the tv endpoint otherwise). -/
def search_media (env : Env) (media_type : String) (interactive : Bool)
    (raw : String) : Option SearchResult :=
  if media_type = "auto" then
    (search_media_auto env.movieResults env.tvResults interactive raw).1
  else if media_type = "movie" then
    search_media_typed env.movieResults media_type
  else
    search_media_typed env.tvResults media_type

/-- The character filter of line 137: keep alphanumerics, space, hyphen
and underscore. -/
def keepChar (c : Char) : Bool :=
  c.isAlphanum || c = ' ' || c = '-' || c = '_'

/-- `"".join(c if c.isalnum() or c in " -_" else "" for c in title)`
(line 137): dropped characters leave nothing behind. -/
def sanitize (s : String) : String :=
  String.mk (s.toList.filter keepChar)

/-- Python's `a or b` over the two optional title fields (line 129):
a present but falsy (empty) first operand falls through to the second. -/
def pyOr (a b : Option String) : Option String :=
  match a with
  | some s => if s = "" then b else some s
  | none => b

/-- `os.path.join` for the two-argument calls the script makes
(line 138), POSIX rules. -/
def pyPathJoin (a b : String) : String :=
  if b.startsWith "/" then b
  else if a = "" ∨ a.endsWith "/" then a ++ b
  else a ++ "/" ++ b

/-- The modelled filesystem: the set of directories that exist and the
files written, each path mapped to its last written content. -/
structure FS where
  dirs : List String
  files : List (String × String)
  deriving DecidableEq

/-- The chain of paths `os.makedirs` creates for `p`: every proper
prefix of the `/`-separated path, then `p` itself. -/
def ancestors (p : String) : List String :=
  ((List.range ((p.splitOn "/").length - 1)).map
    (fun i => String.intercalate "/" ((p.splitOn "/").take (i + 1)))) ++ [p]

/-- `os.makedirs(p, exist_ok=True)` (line 124): create, in order, every
missing path of the chain; existing directories are left alone and no
error is raised for them. -/
def makedirs (p : String) (fs : FS) : FS :=
  { fs with dirs := fs.dirs ++ (ancestors p).filter (fun d => !fs.dirs.contains d) }

/-- `open(path, "wb").write(content)`: overwrite any previous content at
`path`. -/
def writeFile (path content : String) (files : List (String × String)) :
    List (String × String) :=
  files.filter (fun kv => kv.1 != path) ++ [(path, content)]

/-- The effect-free core of `download_poster` (lines 125-136): resolve
the title, fetch the poster URL, and compute the display title, in the
script's evaluation order (the `media_title` `or`-chain result is only
consumed, and can only raise `TypeError` for a double-missing title,
after the poster URL is known).  Returns `none` for the not-found and
no-poster outcomes, otherwise the poster URL and the display title. -/
def poster_outcome (env : Env) (media_type : String) (interactive : Bool)
    (raw : String) : Except PyError (Option (String × String)) :=
  match search_media env media_type interactive raw with
  | none => .ok none
  | some media =>
    match get_poster_url env.posters with
    | .error e => .error e
    | .ok none => .ok none
    | .ok (some url) =>
      match pyOr media.title media.name with
      | none => .error .typeError
      | some media_title => .ok (some (url, media_title))

/-- `download_poster` (lines 118-142): create the output folder first,
then run the pipeline; on the two failure outcomes return `None` having
touched nothing else, on success write the fetched bytes to
`<folder>/<sanitized title>.jpg` and return that path. -/
def download_poster (env : Env) (media_type output_folder : String)
    (interactive : Bool) (raw : String) (fs : FS) :
    Except PyError (Option String × FS) :=
  let fs1 := makedirs output_folder fs
  match poster_outcome env media_type interactive raw with
  | .error e => .error e
  | .ok none => .ok (none, fs1)
  | .ok (some (url, media_title)) =>
    let safe_title := sanitize media_title
    let filepath := pyPathJoin output_folder (safe_title ++ ".jpg")
    .ok (some filepath, { fs1 with files := writeFile filepath (env.imageBytes url) fs1.files })

/-- Whether one title's pipeline, run the way `download_batch` runs it
(non-interactively), ends with a written file. -/
def poster_ok (env : Env) (media_type : String) : Bool :=
  match poster_outcome env media_type false "" with
  | .ok (some _) => true
  | _ => false

/-- The tallies `{"ok": [], "fail": []}` of `download_batch`. -/
structure BatchResults where
  ok : List String
  fail : List String
  deriving DecidableEq

/-- The loop of `download_batch` (lines 150-155): one title at a time,
non-interactively, appending the title to the matching tally; an
exception of one title's pipeline propagates. -/
def batch_loop (envOf : String → Env) (media_type output_folder : String) :
    List String → BatchResults → FS → Except PyError (BatchResults × FS)
  | [], acc, fs => .ok (acc, fs)
  | t :: ts, acc, fs =>
    match download_poster (envOf t) media_type output_folder false "" fs with
    | .error e => .error e
    | .ok (some _, fs1) =>
      batch_loop envOf media_type output_folder ts ⟨acc.ok ++ [t], acc.fail⟩ fs1
    | .ok (none, fs1) =>
      batch_loop envOf media_type output_folder ts ⟨acc.ok, acc.fail ++ [t]⟩ fs1

/-- `download_batch` (lines 145-160): run the loop from empty tallies,
then report the console lines of the summary block (the per-title lines
printed inside `download_poster` are not collected here). -/
def download_batch (envOf : String → Env) (titles : List String)
    (media_type output_folder : String) (fs : FS) :
    Except PyError (BatchResults × FS × List String) :=
  match batch_loop envOf media_type output_folder titles ⟨[], []⟩ fs with
  | .error e => .error e
  | .ok (res, fs1) =>
    .ok (res, fs1,
      ["📥 Descargando " ++ toString titles.length ++ " títulos...\n",
       "\n" ++ String.mk (List.replicate 40 '='),
       "✅ Descargados: " ++ toString res.ok.length,
       "❌ Fallidos: " ++ toString res.fail.length] ++
      (if res.fail.isEmpty then [] else
        ["   → " ++ String.intercalate ", " res.fail]))

/-- The poster the selection of `get_poster_url` lands on when every
entry carries the `iso_639_1` key, stated without the error plumbing:
the first-seen maximum-width entry of the `en` bucket, of the whole
list when the bucket is empty. -/
def selected_poster : List Poster → Option Poster
  | [] => none
  | p :: ps =>
    match (p :: ps).filter (fun q => q.iso_639_1 = some (some "en")) with
    | [] => some (pyMax1 widthOf p ps)
    | e :: es => some (pyMax1 widthOf e es)

lemma pyMax1_nil {α β : Type*} [LinearOrder β] (key : α → β) (x : α) :
    pyMax1 key x [] = x := rfl

lemma pyMax1_cons {α β : Type*} [LinearOrder β] (key : α → β) (x y : α) (ys : List α) :
    pyMax1 key x (y :: ys) = pyMax1 key (if key x < key y then y else x) ys := rfl

/-- Python's first-maximum `max`: the list splits around the returned
element, everything before it strictly smaller, everything after it no
larger. -/
lemma pyMax1_decomp {α β : Type*} [LinearOrder β] (key : α → β) :
    ∀ (xs : List α) (x : α), ∃ l1 l2,
      x :: xs = l1 ++ pyMax1 key x xs :: l2 ∧
      (∀ y ∈ l1, key y < key (pyMax1 key x xs)) ∧
      (∀ y ∈ l2, key y ≤ key (pyMax1 key x xs))
  | [], x => ⟨[], [], rfl, by simp, by simp⟩
  | y :: ys, x => by
    rcases lt_or_le (key x) (key y) with h | h
    · rw [pyMax1_cons, if_pos h]
      obtain ⟨l1, l2, heq, h1, h2⟩ := pyMax1_decomp key ys y
      refine ⟨x :: l1, l2, by rw [List.cons_append, ← heq], ?_, h2⟩
      intro z hz
      rcases List.mem_cons.mp hz with rfl | hz
      · -- key x < key (pyMax1 key y ys)
        rcases l1 with _ | ⟨a, l1'⟩
        · -- heq : y :: ys = pyMax1 key y ys :: l2
          have : y = pyMax1 key y ys := by
            simpa using congrArg (fun l => l.head?) heq
          exact this ▸ h
        · have ha : y = a := by
            simpa using congrArg (fun l => l.head?) heq
          have := h1 a (List.mem_cons_self a l1')
          rw [← ha] at this
          exact h.trans this
      · exact h1 z hz
    · rw [pyMax1_cons, if_neg (not_lt.mpr h)]
      obtain ⟨l1, l2, heq, h1, h2⟩ := pyMax1_decomp key ys x
      rcases l1 with _ | ⟨a, l1'⟩
      · -- heq : x :: ys = m :: l2, so m = x and l2 = ys
        have hx : x = pyMax1 key x ys := by
          simpa using congrArg (fun l => l.head?) heq
        have hys : ys = l2 := by
          simpa using congrArg (fun l => l.tail) heq
        refine ⟨[], y :: ys, by rw [List.nil_append, ← hx], by simp, ?_⟩
        intro z hz
        rcases List.mem_cons.mp hz with rfl | hz
        · exact hx ▸ h
        · exact h2 z (hys ▸ hz)
      · -- heq : x :: ys = a :: (l1' ++ m :: l2), so a = x, ys = l1' ++ m :: l2
        have ha : a = x := by
          have := congrArg (fun l => l.head?) heq
          simpa using this.symm
        have hys : ys = l1' ++ pyMax1 key x ys :: l2 := by
          simpa using congrArg (fun l => l.tail) heq
        have hxm : key x < key (pyMax1 key x ys) := by
          have := h1 a (List.mem_cons_self a l1')
          rwa [ha] at this
        refine ⟨x :: y :: l1', l2, ?_, ?_, h2⟩
        · rw [List.cons_append, List.cons_append, ← hys]
        · intro z hz
          rcases List.mem_cons.mp hz with rfl | hz
          · exact hxm
          rcases List.mem_cons.mp hz with rfl | hz
          · exact lt_of_le_of_lt h hxm
          · exact h1 z (List.mem_cons_of_mem a hz)

/-- The returned element is a member. -/
lemma pyMax1_mem {α β : Type*} [LinearOrder β] (key : α → β) (x : α) (xs : List α) :
    pyMax1 key x xs ∈ x :: xs := by
  obtain ⟨l1, l2, heq, -, -⟩ := pyMax1_decomp key xs x
  rw [heq]
  exact List.mem_append_right l1 (List.mem_cons_self _ _)

/-- Under the precondition that every entry carries the `iso_639_1` key,
the comprehension of line 109 is a plain filter. -/
lemma filterEn_eq_ok (ps : List Poster) (h : ∀ p ∈ ps, (p.iso_639_1).isSome) :
    filterEn ps = .ok (ps.filter (fun p => p.iso_639_1 = some (some "en"))) := by
  induction ps with
  | nil => rfl
  | cons p ps ih =>
    obtain ⟨tag, htag⟩ := Option.isSome_iff_exists.mp (h p (List.mem_cons_self p ps))
    rw [filterEn, htag, ih (fun q hq => h q (List.mem_cons_of_mem p hq))]
    by_cases hcase : tag = some "en"
    · simp [hcase, List.filter_cons, htag]
    · simp [hcase, List.filter_cons, htag]

/-- C1: with an `en`-tagged candidate present, the selection lands in the
`en` bucket, on its first-seen maximum-width entry. -/
theorem get_poster_url_en_bucket (posters : List Poster)
    (hiso : ∀ p ∈ posters, (p.iso_639_1).isSome)
    (hfp : ∀ p ∈ posters, (p.file_path).isSome)
    (hen : ∃ p ∈ posters, p.iso_639_1 = some (some "en")) :
    ∃ (b : Poster) (fp : String) (l1 l2 : List Poster),
      posters.filter (fun q => q.iso_639_1 = some (some "en")) = l1 ++ b :: l2 ∧
      b.iso_639_1 = some (some "en") ∧
      (∀ q ∈ l1, widthOf q < widthOf b) ∧
      (∀ q ∈ l2, widthOf q ≤ widthOf b) ∧
      b.file_path = some fp ∧
      get_poster_url posters = .ok (some (IMAGE_BASE ++ fp)) := by
  obtain ⟨p0, hp0mem, hp0en⟩ := hen
  cases posters with
  | nil => exact absurd hp0mem (List.not_mem_nil p0)
  | cons p ps =>
    have hfe := filterEn_eq_ok (p :: ps) hiso
    have hp0F : p0 ∈ (p :: ps).filter (fun q => q.iso_639_1 = some (some "en")) := by
      rw [List.mem_filter]
      exact ⟨hp0mem, by simp [hp0en]⟩
    cases hF : (p :: ps).filter (fun q => q.iso_639_1 = some (some "en")) with
    | nil => rw [hF] at hp0F; exact absurd hp0F (List.not_mem_nil p0)
    | cons e es =>
      obtain ⟨l1, l2, heq, h1, h2⟩ := pyMax1_decomp widthOf es e
      have hbF : pyMax1 widthOf e es ∈
          (p :: ps).filter (fun q => q.iso_639_1 = some (some "en")) := by
        rw [hF]; exact pyMax1_mem widthOf e es
      have hbmem : pyMax1 widthOf e es ∈ p :: ps := List.mem_of_mem_filter hbF
      have hben : (pyMax1 widthOf e es).iso_639_1 = some (some "en") := by
        have := List.of_mem_filter hbF
        simpa using this
      obtain ⟨fp, hbfp⟩ :=
        Option.isSome_iff_exists.mp (hfp (pyMax1 widthOf e es) hbmem)
      refine ⟨pyMax1 widthOf e es, fp, l1, l2, heq, hben, h1, h2, hbfp, ?_⟩
      rw [get_poster_url, hfe, hF]
      simp only [hbfp]
/-- Witness for C1 at a concrete poster list. -/
theorem get_poster_url_en_bucket_witness :
    ∃ (b : Poster) (fp : String) (l1 l2 : List Poster),
      ([⟨some (some "en"), some "/a.jpg", some 500⟩,
        ⟨some none, some "/b.jpg", some 1000⟩,
        ⟨some (some "en"), some "/c.jpg", some 800⟩] :
          List Poster).filter (fun q => q.iso_639_1 = some (some "en")) =
        l1 ++ b :: l2 ∧
      b.iso_639_1 = some (some "en") ∧
      (∀ q ∈ l1, widthOf q < widthOf b) ∧
      (∀ q ∈ l2, widthOf q ≤ widthOf b) ∧
      b.file_path = some fp ∧
      get_poster_url
          [⟨some (some "en"), some "/a.jpg", some 500⟩,
           ⟨some none, some "/b.jpg", some 1000⟩,
           ⟨some (some "en"), some "/c.jpg", some 800⟩] =
        .ok (some (IMAGE_BASE ++ fp)) :=
  get_poster_url_en_bucket
    [⟨some (some "en"), some "/a.jpg", some 500⟩,
     ⟨some none, some "/b.jpg", some 1000⟩,
     ⟨some (some "en"), some "/c.jpg", some 800⟩]
    (by decide) (by decide) (by decide)

/-- C2: without an `en`-tagged candidate the selection is the first-seen
maximum-width poster of the whole list. -/
theorem get_poster_url_global_max (posters : List Poster)
    (hne : posters ≠ [])
    (hiso : ∀ p ∈ posters, (p.iso_639_1).isSome)
    (hfp : ∀ p ∈ posters, (p.file_path).isSome)
    (hnoen : ∀ p ∈ posters, p.iso_639_1 ≠ some (some "en")) :
    ∃ (b : Poster) (fp : String) (l1 l2 : List Poster),
      posters = l1 ++ b :: l2 ∧
      (∀ q ∈ l1, widthOf q < widthOf b) ∧
      (∀ q ∈ l2, widthOf q ≤ widthOf b) ∧
      b.file_path = some fp ∧
      get_poster_url posters = .ok (some (IMAGE_BASE ++ fp)) := by
  cases posters with
  | nil => exact absurd rfl hne
  | cons p ps =>
    have hfe := filterEn_eq_ok (p :: ps) hiso
    have hFnil : (p :: ps).filter (fun q => q.iso_639_1 = some (some "en")) = [] := by
      rw [List.filter_eq_nil_iff]
      intro a ha
      simpa using hnoen a ha
    obtain ⟨l1, l2, heq, h1, h2⟩ := pyMax1_decomp widthOf ps p
    have hbmem : pyMax1 widthOf p ps ∈ p :: ps := pyMax1_mem widthOf p ps
    obtain ⟨fp, hbfp⟩ :=
      Option.isSome_iff_exists.mp (hfp (pyMax1 widthOf p ps) hbmem)
    refine ⟨pyMax1 widthOf p ps, fp, l1, l2, heq, h1, h2, hbfp, ?_⟩
    rw [get_poster_url, hfe, hFnil]
    simp only [hbfp]

/-- Witness for C2 at a concrete poster list. -/
theorem get_poster_url_global_max_witness :
    ∃ (b : Poster) (fp : String) (l1 l2 : List Poster),
      ([⟨some (some "es"), some "/a.jpg", some 500⟩,
        ⟨some none, some "/b.jpg", some 1000⟩] : List Poster) = l1 ++ b :: l2 ∧
      (∀ q ∈ l1, widthOf q < widthOf b) ∧
      (∀ q ∈ l2, widthOf q ≤ widthOf b) ∧
      b.file_path = some fp ∧
      get_poster_url
          [⟨some (some "es"), some "/a.jpg", some 500⟩,
           ⟨some none, some "/b.jpg", some 1000⟩] =
        .ok (some (IMAGE_BASE ++ fp)) :=
  get_poster_url_global_max
    [⟨some (some "es"), some "/a.jpg", some 500⟩,
     ⟨some none, some "/b.jpg", some 1000⟩]
    (by decide) (by decide) (by decide) (by decide)

/-- Reduction of the auto search with at least two candidates, batch mode. -/
lemma search_media_auto_batch (mv tv : List SearchResult) (raw : String)
    (r r2 : SearchResult) (rs : List SearchResult)
    (hc : combined mv tv = r :: r2 :: rs) :
    search_media_auto mv tv false raw = (some (pyMax1 popOf r (r2 :: rs)), false) := by
  rw [search_media_auto, hc]
  rfl

/-- Reduction of the auto search with at least two candidates, interactive
mode. -/
lemma search_media_auto_interactive (mv tv : List SearchResult) (raw : String)
    (r r2 : SearchResult) (rs : List SearchResult)
    (hc : combined mv tv = r :: r2 :: rs) :
    search_media_auto mv tv true raw =
      (some (interactive_select r (r2 :: rs) raw).1,
        (interactive_select r (r2 :: rs) raw).2) := by
  rw [search_media_auto, hc]
  rfl

/-- C3: in batch mode with two or more combined candidates, the chosen
candidate is the first-seen maximum-popularity one; everything before it
in the combined list is strictly less popular, everything after it no
more popular, with a missing popularity counting as 0 (`popOf`). -/
theorem search_media_batch_max (mv tv : List SearchResult) (raw : String)
    (r r2 : SearchResult) (rs : List SearchResult)
    (hc : combined mv tv = r :: r2 :: rs) :
    ∃ (b : SearchResult) (l1 l2 : List SearchResult),
      combined mv tv = l1 ++ b :: l2 ∧
      (∀ y ∈ l1, popOf y < popOf b) ∧
      (∀ y ∈ l2, popOf y ≤ popOf b) ∧
      search_media_auto mv tv false raw = (some b, false) := by
  obtain ⟨l1, l2, heq, h1, h2⟩ := pyMax1_decomp popOf (r2 :: rs) r
  exact ⟨pyMax1 popOf r (r2 :: rs), l1, l2, hc.trans heq, h1, h2,
    search_media_auto_batch mv tv raw r r2 rs hc⟩

/-- Witness for C3: two movie candidates, popularity 50 and 90. -/
theorem search_media_batch_max_witness :
    ∃ (b : SearchResult) (l1 l2 : List SearchResult),
      combined [⟨1, some "A", none, none, none, some 50, none⟩,
                ⟨2, some "B", none, none, none, some 90, none⟩] [] =
        l1 ++ b :: l2 ∧
      (∀ y ∈ l1, popOf y < popOf b) ∧
      (∀ y ∈ l2, popOf y ≤ popOf b) ∧
      search_media_auto
          [⟨1, some "A", none, none, none, some 50, none⟩,
           ⟨2, some "B", none, none, none, some 90, none⟩] [] false "" =
        (some b, false) :=
  search_media_batch_max
    [⟨1, some "A", none, none, none, some 50, none⟩,
     ⟨2, some "B", none, none, none, some 90, none⟩] [] ""
    (setType "movie" ⟨1, some "A", none, none, none, some 50, none⟩)
    (setType "movie" ⟨2, some "B", none, none, none, some 90, none⟩) []
    (by decide)

lemma interactive_select_empty (first : SearchResult) (rest : List SearchResult)
    (raw : String) (h : pyStrip raw = "") :
    interactive_select first rest raw = (first, false) := by
  simp [interactive_select, h]

lemma interactive_select_not_int (first : SearchResult) (rest : List SearchResult)
    (raw : String) (h0 : pyStrip raw ≠ "") (hp : pyInt (pyStrip raw) = none) :
    interactive_select first rest raw = (first, true) := by
  simp [interactive_select, h0, hp]

lemma interactive_select_in_range (first : SearchResult) (rest : List SearchResult)
    (raw : String) (n : Int) (hp : pyInt (pyStrip raw) = some n)
    (h1 : 1 ≤ n) (h2 : n ≤ ((first :: rest).length : Int)) :
    interactive_select first rest raw =
      ((first :: rest).getD (n - 1).toNat first, false) := by
  have h0 : pyStrip raw ≠ "" := by
    intro h
    rw [h] at hp
    exact Option.noConfusion ((rfl : pyInt "" = none) ▸ hp)
  have hcond : (0 : Int) ≤ n - 1 ∧ n - 1 < ((first :: rest).length : Int) := by
    constructor <;> omega
  simp only [interactive_select, h0, if_neg h0, hp]
  rw [if_pos hcond]
  simp

lemma interactive_select_out_of_range (first : SearchResult)
    (rest : List SearchResult) (raw : String) (n : Int)
    (hp : pyInt (pyStrip raw) = some n)
    (h : n < 1 ∨ ((first :: rest).length : Int) < n) :
    interactive_select first rest raw = (first, true) := by
  have h0 : pyStrip raw ≠ "" := by
    intro h
    rw [h] at hp
    exact Option.noConfusion ((rfl : pyInt "" = none) ▸ hp)
  have hcond : ¬ ((0 : Int) ≤ n - 1 ∧ n - 1 < ((first :: rest).length : Int)) := by
    omega
  simp only [interactive_select, h0, if_neg h0, hp]
  rw [if_neg hcond]
  simp

/-- Counterexample to C4: on an empty disambiguation input with two
candidates, the script selects the first candidate but prints no
warning (the warning flag is `false`). -/
theorem search_media_empty_input_no_warning :
    2 ≤ (combined [⟨1, some "A", none, none, none, some 50, none⟩,
                   ⟨2, some "B", none, none, none, some 90, none⟩] []).length ∧
    (search_media_auto [⟨1, some "A", none, none, none, some 50, none⟩,
                        ⟨2, some "B", none, none, none, some 90, none⟩] []
        true "").1 =
      some (setType "movie" ⟨1, some "A", none, none, none, some 50, none⟩) ∧
    ¬ ((search_media_auto [⟨1, some "A", none, none, none, some 50, none⟩,
                           ⟨2, some "B", none, none, none, some 90, none⟩] []
        true "").2 = true) := by
  decide

/-- C4 as amended: with two or more combined candidates in interactive
mode, an empty input selects the first candidate silently; a parsed
integer selects the 1-based index when it is in range (silently) and
falls back to the first candidate with a warning when it is out of
range (zero and negatives included); a non-integer input falls back to
the first candidate with a warning.  Nothing raises. -/
theorem search_media_interactive_selection (mv tv : List SearchResult)
    (raw : String) (c0 c1 : SearchResult) (cs : List SearchResult)
    (hc : combined mv tv = c0 :: c1 :: cs) :
    (pyStrip raw = "" → search_media_auto mv tv true raw = (some c0, false)) ∧
    (∀ n : Int, pyInt (pyStrip raw) = some n →
      (1 ≤ n → n ≤ ((c0 :: c1 :: cs).length : Int) →
        search_media_auto mv tv true raw =
          (some ((c0 :: c1 :: cs).getD (n - 1).toNat c0), false)) ∧
      ((n < 1 ∨ ((c0 :: c1 :: cs).length : Int) < n) →
        search_media_auto mv tv true raw = (some c0, true))) ∧
    (pyStrip raw ≠ "" → pyInt (pyStrip raw) = none →
      search_media_auto mv tv true raw = (some c0, true)) := by
  have hred := search_media_auto_interactive mv tv raw c0 c1 cs hc
  refine ⟨?_, ?_, ?_⟩
  · intro h
    rw [hred, interactive_select_empty c0 (c1 :: cs) raw h]
  · intro n hp
    constructor
    · intro h1 h2
      rw [hred, interactive_select_in_range c0 (c1 :: cs) raw n hp h1 h2]
    · intro h
      rw [hred, interactive_select_out_of_range c0 (c1 :: cs) raw n hp h]
  · intro h0 hp
    rw [hred, interactive_select_not_int c0 (c1 :: cs) raw h0 hp]

/-- Witness for the amended C4, input `"2"` over two candidates. -/
theorem search_media_interactive_selection_witness :
    (pyStrip "2" = "" →
      search_media_auto [⟨1, some "A", none, none, none, some 50, none⟩,
                         ⟨2, some "B", none, none, none, some 90, none⟩] []
        true "2" =
        (some (setType "movie" ⟨1, some "A", none, none, none, some 50, none⟩),
          false)) ∧
    (∀ n : Int, pyInt (pyStrip "2") = some n →
      (1 ≤ n →
        n ≤ (((setType "movie" ⟨1, some "A", none, none, none, some 50, none⟩) ::
            (setType "movie" ⟨2, some "B", none, none, none, some 90, none⟩) ::
            ([] : List SearchResult)).length : Int) →
        search_media_auto [⟨1, some "A", none, none, none, some 50, none⟩,
                           ⟨2, some "B", none, none, none, some 90, none⟩] []
          true "2" =
          (some (((setType "movie" ⟨1, some "A", none, none, none, some 50, none⟩) ::
              (setType "movie" ⟨2, some "B", none, none, none, some 90, none⟩) ::
              ([] : List SearchResult)).getD (n - 1).toNat
            (setType "movie" ⟨1, some "A", none, none, none, some 50, none⟩)),
            false)) ∧
      ((n < 1 ∨
          (((setType "movie" ⟨1, some "A", none, none, none, some 50, none⟩) ::
            (setType "movie" ⟨2, some "B", none, none, none, some 90, none⟩) ::
            ([] : List SearchResult)).length : Int) < n) →
        search_media_auto [⟨1, some "A", none, none, none, some 50, none⟩,
                           ⟨2, some "B", none, none, none, some 90, none⟩] []
          true "2" =
          (some (setType "movie" ⟨1, some "A", none, none, none, some 50, none⟩),
            true))) ∧
    (pyStrip "2" ≠ "" → pyInt (pyStrip "2") = none →
      search_media_auto [⟨1, some "A", none, none, none, some 50, none⟩,
                         ⟨2, some "B", none, none, none, some 90, none⟩] []
        true "2" =
        (some (setType "movie" ⟨1, some "A", none, none, none, some 50, none⟩),
          true)) :=
  search_media_interactive_selection
    [⟨1, some "A", none, none, none, some 50, none⟩,
     ⟨2, some "B", none, none, none, some 90, none⟩] [] "2"
    (setType "movie" ⟨1, some "A", none, none, none, some 50, none⟩)
    (setType "movie" ⟨2, some "B", none, none, none, some 90, none⟩) []
    (by decide)

/-- C5: when both search endpoints return zero results, `search_media`
returns the not-found sentinel for every type hint and mode, and
`download_poster` returns `None` having only ensured the output
directory, writing no file. -/
theorem search_empty_not_found (env : Env) (media_type output_folder : String)
    (interactive : Bool) (raw : String) (fs : FS)
    (hmv : env.movieResults = []) (htv : env.tvResults = []) :
    search_media env media_type interactive raw = none ∧
    download_poster env media_type output_folder interactive raw fs =
      .ok (none, makedirs output_folder fs) ∧
    (makedirs output_folder fs).files = fs.files := by
  have hs : search_media env media_type interactive raw = none := by
    rw [search_media]
    by_cases hauto : media_type = "auto"
    · rw [if_pos hauto, search_media_auto]
      rw [hmv, htv]
      rfl
    · rw [if_neg hauto]
      by_cases hmovie : media_type = "movie"
      · rw [if_pos hmovie, hmv, search_media_typed]
      · rw [if_neg hmovie, htv, search_media_typed]
  refine ⟨hs, ?_, rfl⟩
  rw [download_poster, poster_outcome, hs]

/-- Witness for C5 at an empty environment. -/
theorem search_empty_not_found_witness :
    search_media ⟨[], [], [], fun _ => ""⟩ "auto" false "" = none ∧
    download_poster ⟨[], [], [], fun _ => ""⟩ "auto" "posters" false "" ⟨[], []⟩ =
      .ok (none, makedirs "posters" ⟨[], []⟩) ∧
    (makedirs "posters" (⟨[], []⟩ : FS)).files = FS.files ⟨[], []⟩ :=
  search_empty_not_found ⟨[], [], [], fun _ => ""⟩ "auto" "posters" false ""
    ⟨[], []⟩ rfl rfl

/-- C6: filename sanitization is idempotent (it is total by
construction: a Lean function, defined for every input string,
including those whose every character is dropped). -/
theorem sanitize_idempotent (s : String) : sanitize (sanitize s) = sanitize s := by
  simp [sanitize, List.filter_filter]

/-- C7: the sanitized name is a subsequence of the input (original
order, nothing inserted), every retained character is alphanumeric,
space, hyphen or underscore, every such character of the input is
retained with its multiplicity, and every other character is dropped. -/
theorem sanitize_characterization (s : String) :
    (sanitize s).toList.Sublist s.toList ∧
    (∀ c ∈ (sanitize s).toList,
      c.isAlphanum = true ∨ c = ' ' ∨ c = '-' ∨ c = '_') ∧
    (∀ c : Char, (c.isAlphanum = true ∨ c = ' ' ∨ c = '-' ∨ c = '_') →
      (sanitize s).toList.count c = s.toList.count c) ∧
    (∀ c : Char, ¬ (c.isAlphanum = true ∨ c = ' ' ∨ c = '-' ∨ c = '_') →
      (sanitize s).toList.count c = 0) := by
  have hiff : ∀ c : Char, keepChar c = true ↔
      (c.isAlphanum = true ∨ c = ' ' ∨ c = '-' ∨ c = '_') := by
    intro c
    simp [keepChar, Bool.or_eq_true, decide_eq_true_eq]
    tauto
  have htl : (sanitize s).toList = s.toList.filter keepChar := rfl
  refine ⟨?_, ?_, ?_, ?_⟩
  · rw [htl]; exact List.filter_sublist s.toList
  · intro c hc
    rw [htl] at hc
    exact (hiff c).mp (List.of_mem_filter hc)
  · intro c hc
    rw [htl, List.count_filter]
    simp [(hiff c).mpr hc]
  · intro c hc
    rw [htl, List.count_eq_zero]
    intro hmem
    exact hc ((hiff c).mp (List.of_mem_filter hmem))

lemma length_filter_add_length_filter_not {α : Type*} (p : α → Bool) (l : List α) :
    (l.filter p).length + (l.filter (fun a => !p a)).length = l.length := by
  induction l with
  | nil => rfl
  | cons a l ih => cases hpa : p a <;> simp [List.filter_cons, hpa] <;> omega

/-- The loop of `download_batch` appends each processed title to the
tally matching its outcome, never aborting on a `None` outcome. -/
lemma batch_loop_spec (envOf : String → Env) (mt outf : String) :
    ∀ (ts : List String) (acc : BatchResults) (fs : FS),
      (∀ t ∈ ts, (poster_outcome (envOf t) mt false "").isOk) →
      ∃ fs1, batch_loop envOf mt outf ts acc fs =
        .ok (⟨acc.ok ++ ts.filter (fun t => poster_ok (envOf t) mt),
              acc.fail ++ ts.filter (fun t => !poster_ok (envOf t) mt)⟩, fs1)
  | [], acc, fs, _ => ⟨fs, by cases acc; simp [batch_loop]⟩
  | t :: ts, acc, fs, h => by
    have hok := h t (List.mem_cons_self t ts)
    have htail := fun u hu => h u (List.mem_cons_of_mem t hu)
    cases hpo : poster_outcome (envOf t) mt false "" with
    | error e => rw [hpo] at hok; exact absurd hok (by simp [Except.isOk, Except.toBool])
    | ok v =>
      cases v with
      | none =>
        have hpok : poster_ok (envOf t) mt = false := by
          rw [poster_ok, hpo]
        obtain ⟨fs1, hrec⟩ :=
          batch_loop_spec envOf mt outf ts ⟨acc.ok, acc.fail ++ [t]⟩
            (makedirs outf fs) htail
        refine ⟨fs1, ?_⟩
        rw [batch_loop, download_poster, hpo]
        exact hrec.trans (by simp [List.filter_cons, hpok])
      | some pair =>
        have hpok : poster_ok (envOf t) mt = true := by
          rw [poster_ok, hpo]
        obtain ⟨fs1, hrec⟩ :=
          batch_loop_spec envOf mt outf ts ⟨acc.ok ++ [t], acc.fail⟩
            ({ makedirs outf fs with
                files := writeFile
                  (pyPathJoin outf (sanitize pair.2 ++ ".jpg"))
                  ((envOf t).imageBytes pair.1)
                  (makedirs outf fs).files }) htail
        refine ⟨fs1, ?_⟩
        rw [batch_loop, download_poster, hpo]
        exact hrec.trans (by simp [List.filter_cons, hpok])

/-- C8: when no title's pipeline raises, the batch completes, every
title lands in exactly the tally its outcome dictates (success iff a
path was returned; not-found and no-poster both count as failure), the
tallies' lengths sum to the input length, and the summary lines print
the counts and the failed titles joined by `", "`. -/
theorem download_batch_partition (envOf : String → Env) (titles : List String)
    (mt outf : String) (fs : FS)
    (h : ∀ t ∈ titles, (poster_outcome (envOf t) mt false "").isOk) :
    ∃ (res : BatchResults) (fs1 : FS) (lines : List String),
      download_batch envOf titles mt outf fs = .ok (res, fs1, lines) ∧
      res.ok = titles.filter (fun t => poster_ok (envOf t) mt) ∧
      res.fail = titles.filter (fun t => !poster_ok (envOf t) mt) ∧
      res.ok.length + res.fail.length = titles.length ∧
      ("✅ Descargados: " ++ toString res.ok.length) ∈ lines ∧
      ("❌ Fallidos: " ++ toString res.fail.length) ∈ lines ∧
      (res.fail ≠ [] → ("   → " ++ String.intercalate ", " res.fail) ∈ lines) := by
  obtain ⟨fs1, hloop⟩ := batch_loop_spec envOf mt outf titles ⟨[], []⟩ fs h
  simp only [List.nil_append] at hloop
  refine ⟨⟨titles.filter (fun t => poster_ok (envOf t) mt),
           titles.filter (fun t => !poster_ok (envOf t) mt)⟩, fs1,
    ["📥 Descargando " ++ toString titles.length ++ " títulos...\n",
     "\n" ++ String.mk (List.replicate 40 '='),
     "✅ Descargados: " ++ toString (titles.filter (fun t => poster_ok (envOf t) mt)).length,
     "❌ Fallidos: " ++ toString (titles.filter (fun t => !poster_ok (envOf t) mt)).length] ++
      (if (titles.filter (fun t => !poster_ok (envOf t) mt)).isEmpty then [] else
        ["   → " ++ String.intercalate ", "
          (titles.filter (fun t => !poster_ok (envOf t) mt))]),
    ?_, rfl, rfl, length_filter_add_length_filter_not _ titles, ?_, ?_, ?_⟩
  · rw [download_batch, hloop]
  · simp
  · simp
  · intro hfail
    simp only [List.mem_append]
    right
    rw [if_neg (by simpa [List.isEmpty_iff] using hfail)]
    exact List.mem_singleton_self _

/-- An environment whose every response is empty. -/
def emptyEnv : Env := ⟨[], [], [], fun _ => ""⟩

/-- Witness for C8: a one-title batch whose search finds nothing. -/
theorem download_batch_partition_witness :
    ∃ (res : BatchResults) (fs1 : FS) (lines : List String),
      download_batch (fun _ => emptyEnv) ["X"] "auto" "posters" ⟨[], []⟩ =
        .ok (res, fs1, lines) ∧
      res.ok = (["X"] : List String).filter (fun _ => poster_ok emptyEnv "auto") ∧
      res.fail = (["X"] : List String).filter (fun _ => !poster_ok emptyEnv "auto") ∧
      res.ok.length + res.fail.length = (["X"] : List String).length ∧
      ("✅ Descargados: " ++ toString res.ok.length) ∈ lines ∧
      ("❌ Fallidos: " ++ toString res.fail.length) ∈ lines ∧
      (res.fail ≠ [] → ("   → " ++ String.intercalate ", " res.fail) ∈ lines) :=
  download_batch_partition (fun _ => emptyEnv) ["X"] "auto" "posters" ⟨[], []⟩
    (by decide)

/-- C9: the `en` filter indexes `iso_639_1` unguarded, so a list with an
entry lacking the key raises `KeyError`; when every entry carries the
key and the selected entry carries `file_path`, no error is possible. -/
theorem get_poster_url_key_requirement :
    (get_poster_url [⟨none, some "/x.jpg", some 100⟩] =
      .error (.keyError "iso_639_1")) ∧
    (∀ ps : List Poster, (∀ p ∈ ps, (p.iso_639_1).isSome) →
      (∀ b : Poster, selected_poster ps = some b → (b.file_path).isSome) →
      (get_poster_url ps).isOk) := by
  constructor
  · rfl
  · intro ps hiso hsel
    cases ps with
    | nil => rfl
    | cons p ps =>
      have hfe := filterEn_eq_ok (p :: ps) hiso
      rw [get_poster_url, hfe]
      cases hF : (p :: ps).filter (fun q => q.iso_639_1 = some (some "en")) with
      | nil =>
        have hb := hsel (pyMax1 widthOf p ps) (by rw [selected_poster, hF])
        obtain ⟨fp, hfp⟩ := Option.isSome_iff_exists.mp hb
        simp only [hfp]
        rfl
      | cons e es =>
        have hb := hsel (pyMax1 widthOf e es) (by rw [selected_poster, hF])
        obtain ⟨fp, hfp⟩ := Option.isSome_iff_exists.mp hb
        simp only [hfp]
        rfl

lemma mem_ancestors_self (p : String) : p ∈ ancestors p := by
  simp [ancestors]

lemma mem_makedirs_of_mem_ancestors (p : String) (fs : FS) :
    ∀ d ∈ ancestors p, d ∈ (makedirs p fs).dirs := by
  intro d hd
  by_cases hmem : d ∈ fs.dirs
  · exact List.mem_append_left _ hmem
  · refine List.mem_append_right _ ?_
    rw [List.mem_filter]
    refine ⟨hd, ?_⟩
    simpa using hmem

lemma makedirs_files (p : String) (fs : FS) : (makedirs p fs).files = fs.files := rfl

lemma makedirs_idem (p : String) (fs : FS) :
    makedirs p (makedirs p fs) = makedirs p fs := by
  conv_lhs => rw [makedirs]
  have hnil : (ancestors p).filter (fun d => !(makedirs p fs).dirs.contains d) = [] := by
    rw [List.filter_eq_nil_iff]
    intro d hd
    simpa using mem_makedirs_of_mem_ancestors p fs d hd
  rw [hnil, List.append_nil]

/-- C10: `download_poster` creates the output folder (with its ancestor
chain) before anything else, idempotently, so after any non-raising call
the folder exists; on a `None` outcome the filesystem is exactly the
input plus the created folder chain, with no file touched. -/
theorem download_poster_dir_frame (env : Env) (media_type output_folder : String)
    (interactive : Bool) (raw : String) (fs : FS) (r : Option String) (fs1 : FS)
    (h : download_poster env media_type output_folder interactive raw fs =
      .ok (r, fs1)) :
    output_folder ∈ fs1.dirs ∧
    (∀ d ∈ ancestors output_folder, d ∈ fs1.dirs) ∧
    (r = none → fs1 = makedirs output_folder fs) ∧
    (r = none → fs1.files = fs.files) ∧
    makedirs output_folder (makedirs output_folder fs) =
      makedirs output_folder fs := by
  have hidem := makedirs_idem output_folder fs
  have hanc := mem_makedirs_of_mem_ancestors output_folder fs
  cases hpo : poster_outcome env media_type interactive raw with
  | error e => rw [download_poster, hpo] at h; exact Except.noConfusion h
  | ok v =>
    cases v with
    | none =>
      rw [download_poster, hpo] at h
      injection h with h1
      have hr : r = none := (congrArg Prod.fst h1).symm
      have hfs : fs1 = makedirs output_folder fs := (congrArg Prod.snd h1).symm
      subst hfs
      exact ⟨hanc output_folder (mem_ancestors_self output_folder), hanc,
        fun _ => rfl, fun _ => rfl, hidem⟩
    | some pair =>
      rw [download_poster, hpo] at h
      injection h with h1
      have hr : r = some (pyPathJoin output_folder (sanitize pair.2 ++ ".jpg")) :=
        (congrArg Prod.fst h1).symm
      have hfs : fs1.dirs = (makedirs output_folder fs).dirs :=
        (congrArg (fun y => y.2.dirs) h1).symm
      refine ⟨?_, ?_, ?_, ?_, hidem⟩
      · rw [hfs]
        exact hanc output_folder (mem_ancestors_self output_folder)
      · intro d hd
        rw [hfs]
        exact hanc d hd
      · intro hcontr
        rw [hr] at hcontr
        exact Option.noConfusion hcontr
      · intro hcontr
        rw [hr] at hcontr
        exact Option.noConfusion hcontr

/-- Witness for C10: a not-found title against a fresh filesystem. -/
theorem download_poster_dir_frame_witness :
    "posters" ∈ (makedirs "posters" (⟨[], []⟩ : FS)).dirs ∧
    (∀ d ∈ ancestors "posters", d ∈ (makedirs "posters" (⟨[], []⟩ : FS)).dirs) ∧
    ((none : Option String) = none →
      makedirs "posters" (⟨[], []⟩ : FS) = makedirs "posters" ⟨[], []⟩) ∧
    ((none : Option String) = none →
      (makedirs "posters" (⟨[], []⟩ : FS)).files = FS.files ⟨[], []⟩) ∧
    makedirs "posters" (makedirs "posters" (⟨[], []⟩ : FS)) =
      makedirs "posters" ⟨[], []⟩ :=
  download_poster_dir_frame emptyEnv "auto" "posters" false "" ⟨[], []⟩ none
    (makedirs "posters" ⟨[], []⟩) rfl

end PosterDownloader
